import Mathlib

/-!
Verification of the `ticket_evaluator` batch-evaluation pipeline
(`ticket_evaluator/scoring.py`, `ticket_evaluator/schemas.py`,
`ticket_evaluator/csv_io.py`).

Python dictionaries over string keys are embedded as association lists
`List (String × α)` in insertion order, with value type `Option String`
(`none` models Python `None`, `some s` a `str`).  `pyInsert` is the
semantics of `d[k] = v` (replace the value at an existing key in place,
otherwise append), `pyUpdate a b` the semantics of the double-star dict
merge of `a` then `b`.  The external judge client is embedded as the per-attempt
outcome of `client.responses.create` followed by `extract_output_text`:
a function `Nat → Except PyErr String` giving, for each attempt number,
either the raised exception or the extracted text of the response.  The
external JSON parser is a parameter `jparse : String → Option Json`
(`none` = malformed JSON).  The `isinstance(e, openai_error_type)` test
is a parameter `catches : PyErr → Bool`; the production instantiation
(`evaluate_tickets.py`, `openai_error_type=OpenAIError`) is
`openaiErrorOnly`.  Waiting (`time.sleep`) is recorded as the list of
requested wait durations.
-/

/-- Python dict lookup `d.get(k)`: first (unique, in dict semantics)
binding of `k`. -/
def dictLookup {α : Type} (k : String) : List (String × α) → Option α
  | [] => none
  | p :: rest => if p.1 = k then some p.2 else dictLookup k rest

/-- Python dict assignment `d[k] = v`: replace the value at an existing
key in place, otherwise append the new binding at the end. -/
def pyInsert {α : Type} : List (String × α) → String → α → List (String × α)
  | [], k, v => [(k, v)]
  | p :: rest, k, v =>
      if p.1 = k then (k, v) :: pyInsert rest k v else p :: pyInsert rest k v

/-- Python double-star dict merge of `a` then `b`: copy `a`, then assign
every binding of `b` in order. -/
def pyUpdate {α : Type} (a b : List (String × α)) : List (String × α) :=
  b.foldl (fun d p => pyInsert d p.1 p.2) a

/-- A Python dict value in this program: `None` or a `str`. -/
abbrev PyVal := Option String

/-- A row / result dict: string keys to `None`-or-string values. -/
abbrev PyDict := List (String × PyVal)

/-- `scoring.error_result` (scoring.py lines 49-66): the uniform error-path
result dict. -/
def error_result (reason : String) (error_score : Int) (status : String) :
    PyDict :=
  let pfx : String :=
    if status = "infra_error" then "INFRA_ERROR"
    else if status = "input_error" then "INPUT_ERROR"
    else "ERROR"
  let msg : String := pfx ++ ": " ++ reason
  let score : String := toString error_score
  [("content_score", some score),
   ("content_explanation", some msg),
   ("format_score", some score),
   ("format_explanation", some msg),
   ("evaluation_status", some status),
   ("evaluation_error", some reason)]

/-- C8: for every error-status result (`input_error` or `infra_error`), both
score fields equal the string rendering of the caller-supplied
`error_score` and both explanation fields equal `"<PREFIX>: <reason>"`
where PREFIX is `INFRA_ERROR` for `infra_error` and `INPUT_ERROR` for
`input_error`. -/
theorem error_result_fields (reason : String) (error_score : Int)
    (status : String)
    (h : status = "infra_error" ∨ status = "input_error") :
    dictLookup "content_score" (error_result reason error_score status)
        = some (some (toString error_score)) ∧
    dictLookup "format_score" (error_result reason error_score status)
        = some (some (toString error_score)) ∧
    dictLookup "content_explanation" (error_result reason error_score status)
        = some (some ((if status = "infra_error" then "INFRA_ERROR"
            else "INPUT_ERROR") ++ ": " ++ reason)) ∧
    dictLookup "format_explanation" (error_result reason error_score status)
        = some (some ((if status = "infra_error" then "INFRA_ERROR"
            else "INPUT_ERROR") ++ ": " ++ reason)) := by
  rcases h with h | h <;> subst h <;>
    simp [error_result, dictLookup]

/-- Witness for C8 at a concrete input: status `input_error`, score 3. -/
theorem error_result_fields_witness :
    dictLookup "content_explanation" (error_result "bad row" 3 "input_error")
        = some (some ("INPUT_ERROR" ++ ": " ++ "bad row")) :=
  ((error_result_fields "bad row" 3 "input_error" (Or.inr rfl)).2.2.1).trans
    (by decide)

/-- A parsed JSON value.  Numbers are modelled as rationals: a JSON
number validates as an integer exactly when its denominator is 1. -/
inductive Json where
  | null
  | bool (b : Bool)
  | num (q : Rat)
  | str (s : String)
  | arr (xs : List Json)
  | obj (fields : List (String × Json))

/-- `schemas.TicketEvaluation` (schemas.py lines 8-14): the strict schema
expected from the model output. -/
structure TicketEvaluation where
  content_score : Int
  content_explanation : String
  format_score : Int
  format_explanation : String

/-- The range invariant that pydantic guarantees for every constructed
`TicketEvaluation` instance (both scores are between 1 and 5). -/
def TicketEvaluation.valid (te : TicketEvaluation) : Prop :=
  1 ≤ te.content_score ∧ te.content_score ≤ 5 ∧
    1 ≤ te.format_score ∧ te.format_score ≤ 5

instance (te : TicketEvaluation) : Decidable te.valid := by
  unfold TicketEvaluation.valid; infer_instance

/-- Python `str.strip()`: remove leading and trailing whitespace
characters. -/
def pyStrip (s : String) : String :=
  String.mk
    (((s.data.dropWhile Char.isWhitespace).reverse.dropWhile
        Char.isWhitespace).reverse)

/-- Decimal digits accumulated into a natural number; `none` on any
non-digit character. -/
def decDigitsAux : List Char → Nat → Option Nat
  | [], acc => some acc
  | c :: cs, acc =>
      if c.isDigit then decDigitsAux cs (acc * 10 + (c.toNat - 48))
      else none

/-- The string-to-int coercion of pydantic v2 lax validation: after
trimming surrounding whitespace, an optional sign followed by one or
more decimal digits parses to the integer; anything else fails. -/
def strToInt (s : String) : Option Int :=
  match (pyStrip s).data with
  | [] => none
  | '+' :: cs => if cs = [] then none else (decDigitsAux cs 0).map Int.ofNat
  | '-' :: cs =>
      if cs = [] then none
      else (decDigitsAux cs 0).map (fun n => -(n : Int))
  | cs => (decDigitsAux cs 0).map Int.ofNat

/-- Validation of a JSON value against an `int` field under pydantic v2
default (lax) mode: an integral number is accepted, a string spelling
an optionally-signed decimal integer is coerced, and booleans, nulls,
fractional numbers, arrays and objects are rejected. -/
def coerceInt : Json → Option Int
  | .num q => if q.den = 1 then some q.num else none
  | .str s => strToInt s
  | _ => none

/-- Validation of a JSON value against a `str` field. -/
def coerceStr : Json → Option String
  | .str s => some s
  | _ => none

/-- One `int = Field(ge=1, le=5)` field of the schema: the key must be
present, coercible to an integer (see `coerceInt`), and within the
closed range 1..5. -/
def fieldInt (o : List (String × Json)) (k : String) : Except String Int :=
  match dictLookup k o with
  | none => .error (k ++ ": Field required")
  | some j =>
      match coerceInt j with
      | none => .error (k ++ ": Input should be a valid integer")
      | some n =>
          if n < 1 then
            .error (k ++ ": Input should be greater than or equal to 1")
          else if 5 < n then
            .error (k ++ ": Input should be less than or equal to 5")
          else .ok n

/-- One `str` field of the schema: the key must be present and a string. -/
def fieldStr (o : List (String × Json)) (k : String) : Except String String :=
  match dictLookup k o with
  | none => .error (k ++ ": Field required")
  | some j =>
      match coerceStr j with
      | none => .error (k ++ ": Input should be a valid string")
      | some s => .ok s

/-- `TicketEvaluation.model_validate` on a JSON object: every required
field validated, extra keys ignored, no partial result. -/
def validateObj (o : List (String × Json)) : Except String TicketEvaluation :=
  match fieldInt o "content_score" with
  | .error e => .error e
  | .ok cs =>
      match fieldStr o "content_explanation" with
      | .error e => .error e
      | .ok ce =>
          match fieldInt o "format_score" with
          | .error e => .error e
          | .ok fs =>
              match fieldStr o "format_explanation" with
              | .error e => .error e
              | .ok fe => .ok ⟨cs, ce, fs, fe⟩

/-- Validation of an arbitrary JSON payload: the top level must be an
object matching the schema. -/
def validateJson : Json → Except String TicketEvaluation
  | .obj o => validateObj o
  | _ => .error "Input should be an object"

/-- The raw judge output accepted by `parse_llm_json`: an already
constructed `TicketEvaluation`, a dict, or a raw text payload. -/
inductive RawOutput where
  | structured (te : TicketEvaluation)
  | mapping (o : List (String × Json))
  | text (s : String)

/-- Python string slice `s[:n]`: the first `n` characters (code points). -/
def pyTake (s : String) (n : Nat) : String :=
  String.mk (s.data.take n)

/-- `schemas.parse_llm_json` (schemas.py lines 32-51), parameterised by
the ambient JSON parser `jparse` (`none` = the payload is malformed
JSON).  Validates and normalizes model output: on success both scores
are rendered as strings and both explanations are truncated to 1000
characters; any violation is reported as a single error value. -/
def parse_llm_json (jparse : String → Option Json) (raw : RawOutput) :
    Except String PyDict :=
  let v : Except String TicketEvaluation :=
    match raw with
    | .structured te => .ok te
    | .mapping o => validateObj o
    | .text s =>
        match jparse s with
        | none => .error "Invalid JSON"
        | some j => validateJson j
  match v with
  | .error msg => .error ("LLM output did not match expected schema: " ++ msg)
  | .ok te =>
      .ok [("content_score", some (toString te.content_score)),
           ("content_explanation", some (pyTake te.content_explanation 1000)),
           ("format_score", some (toString te.format_score)),
           ("format_explanation", some (pyTake te.format_explanation 1000))]

/-- The schema requirement that `parse_llm_json` assumes of an
already-constructed `TicketEvaluation` input (pydantic validates on
construction); trivial for the dict and text forms, which are validated
by `parse_llm_json` itself. -/
def rawValid : RawOutput → Prop
  | .structured te => te.valid
  | _ => True

theorem fieldInt_ok_range {o : List (String × Json)} {k : String} {n : Int}
    (h : fieldInt o k = .ok n) : 1 ≤ n ∧ n ≤ 5 := by
  unfold fieldInt at h
  split at h
  · exact absurd h (by simp)
  · split at h
    · exact absurd h (by simp)
    · split at h
      · exact absurd h (by simp)
      · split at h
        · exact absurd h (by simp)
        · rename_i hlt hle
          cases h
          omega

theorem validateObj_ok_fields {o : List (String × Json)}
    {te : TicketEvaluation} (h : validateObj o = .ok te) :
    fieldInt o "content_score" = .ok te.content_score ∧
    fieldStr o "content_explanation" = .ok te.content_explanation ∧
    fieldInt o "format_score" = .ok te.format_score ∧
    fieldStr o "format_explanation" = .ok te.format_explanation := by
  unfold validateObj at h
  split at h
  · exact absurd h (by simp)
  · rename_i cs hcs
    split at h
    · exact absurd h (by simp)
    · rename_i ce hce
      split at h
      · exact absurd h (by simp)
      · rename_i fs hfs
        split at h
        · exact absurd h (by simp)
        · rename_i fe hfe
          cases h
          exact ⟨hcs, hce, hfs, hfe⟩

/-- Shape of every successful `parse_llm_json` result, together with the
provenance of the validated evaluation. -/
theorem parse_llm_json_ok_inv {jparse : String → Option Json}
    {raw : RawOutput} {d : PyDict}
    (h : parse_llm_json jparse raw = .ok d) :
    ∃ te : TicketEvaluation,
      d = [("content_score", some (toString te.content_score)),
           ("content_explanation", some (pyTake te.content_explanation 1000)),
           ("format_score", some (toString te.format_score)),
           ("format_explanation", some (pyTake te.format_explanation 1000))] ∧
      (match raw with
       | .structured te0 => te0 = te
       | .mapping o => validateObj o = .ok te
       | .text s => ∃ j, jparse s = some j ∧ validateJson j = .ok te) := by
  unfold parse_llm_json at h
  cases raw with
  | structured te0 =>
      simp only [] at h
      cases h
      exact ⟨te0, rfl, rfl⟩
  | mapping o =>
      simp only [] at h
      split at h
      · exact absurd h (by simp)
      · rename_i te hte
        cases h
        exact ⟨te, rfl, hte⟩
  | text s =>
      simp only [] at h
      split at h
      · exact absurd h (by simp)
      · rename_i te hte
        split at hte
        · exact absurd hte (by simp)
        · rename_i j hj
          cases h
          exact ⟨te, rfl, j, hj, hte⟩

/-- C5: for every schema-conformant raw judge output, `parse_llm_json`
returns both scores as decimal strings of integers in 1..5 and both
explanations truncated to at most 1000 characters (longer text is
silently cut, not rejected). -/
theorem parse_llm_json_normalizes (jparse : String → Option Json)
    (raw : RawOutput) (d : PyDict) (hv : rawValid raw)
    (h : parse_llm_json jparse raw = .ok d) :
    ∃ (n m : Int) (s t : String),
      1 ≤ n ∧ n ≤ 5 ∧ 1 ≤ m ∧ m ≤ 5 ∧
      d = [("content_score", some (toString n)),
           ("content_explanation", some (pyTake s 1000)),
           ("format_score", some (toString m)),
           ("format_explanation", some (pyTake t 1000))] ∧
      (pyTake s 1000).length ≤ 1000 ∧ (pyTake t 1000).length ≤ 1000 := by
  obtain ⟨te, rfl, hprov⟩ := parse_llm_json_ok_inv h
  have hlen : ∀ u : String, (pyTake u 1000).length ≤ 1000 := by
    intro u
    simp only [pyTake, String.length, List.length_take]
    omega
  refine ⟨te.content_score, te.format_score,
    te.content_explanation, te.format_explanation, ?_, ?_, ?_, ?_,
    rfl, hlen _, hlen _⟩
  all_goals cases raw with
  | structured te0 =>
      simp only [rawValid] at hv
      simp only [] at hprov
      subst hprov
      obtain ⟨a, b, c, d⟩ := hv
      omega
  | mapping o =>
      simp only [] at hprov
      obtain ⟨h1, -, h2, -⟩ := validateObj_ok_fields hprov
      have r1 := fieldInt_ok_range h1
      have r2 := fieldInt_ok_range h2
      omega
  | text s =>
      simp only [] at hprov
      obtain ⟨j, -, hj⟩ := hprov
      cases j <;> simp only [validateJson] at hj
      all_goals first
      | (exact absurd hj (by simp))
      | (obtain ⟨h1, -, h2, -⟩ := validateObj_ok_fields hj
         have r1 := fieldInt_ok_range h1
         have r2 := fieldInt_ok_range h2
         omega)

/-- Witness for C5 at a concrete input: an in-range dict payload. -/
theorem parse_llm_json_normalizes_witness :
    ∃ (n m : Int) (s t : String),
      1 ≤ n ∧ n ≤ 5 ∧ 1 ≤ m ∧ m ≤ 5 ∧
      ([("content_score", some "2"), ("content_explanation", some "good"),
        ("format_score", some "5"), ("format_explanation", some "fine")]
          : PyDict)
        = [("content_score", some (toString n)),
           ("content_explanation", some (pyTake s 1000)),
           ("format_score", some (toString m)),
           ("format_explanation", some (pyTake t 1000))] ∧
      (pyTake s 1000).length ≤ 1000 ∧ (pyTake t 1000).length ≤ 1000 :=
  parse_llm_json_normalizes (fun _ => none)
    (.mapping [("content_score", .num ((2 : Int) : Rat)),
               ("content_explanation", .str "good"),
               ("format_score", .num ((5 : Int) : Rat)),
               ("format_explanation", .str "fine")])
    _ trivial rfl

/-- A Python exception as it matters to the retry loop of
`evaluate_with_llm`: the exception class and its message. -/
inductive PyErr where
  | openaiErr (msg : String)
  | valueErr (msg : String)
  | jsonDecodeErr (msg : String)
  | runtimeErr (msg : String)
deriving DecidableEq

/-- Python `str(exc)`: the message of the exception. -/
def pyStrErr : PyErr → String
  | .openaiErr msg => msg
  | .valueErr msg => msg
  | .jsonDecodeErr msg => msg
  | .runtimeErr msg => msg

/-- The `except (openai_error_type, ValueError, json.JSONDecodeError)`
clause (scoring.py line 135): `catches` is the
`isinstance(e, openai_error_type)` test supplied by the caller;
`ValueError` and `json.JSONDecodeError` are always caught. -/
def caughtBy (catches : PyErr → Bool) (e : PyErr) : Bool :=
  catches e ||
    (match e with
     | .valueErr _ => true
     | .jsonDecodeErr _ => true
     | _ => false)

/-- The production `openai_error_type` (`evaluate_tickets.py` line 117
passes `openai.OpenAIError`, which is unrelated to `RuntimeError`,
`ValueError` and `json.JSONDecodeError`). -/
def openaiErrorOnly : PyErr → Bool
  | .openaiErr _ => true
  | _ => false

/-- The outcome of the body of one retry-loop iteration of
`evaluate_with_llm`: a returned result dict, an exception caught by the
`except` clause, or an exception that escapes the loop. -/
inductive AttemptResult where
  | ok (fields : PyDict)
  | caught (e : PyErr)
  | uncaught (e : PyErr)

/-- The try-block of one attempt of `evaluate_with_llm` (scoring.py
lines 116-140): call the judge (`stub i` = raised error or extracted
text of attempt `i`), raise `RuntimeError` on empty extracted text,
parse and normalize, and classify any raised exception against the
`except` clause. -/
def classifyAttempt (catches : PyErr → Bool)
    (jparse : String → Option Json) (stub : Nat → Except PyErr String)
    (i : Nat) : AttemptResult :=
  match stub i with
  | .error e => if caughtBy catches e then .caught e else .uncaught e
  | .ok raw_output =>
      if raw_output = "" then
        let e := PyErr.runtimeErr "LLM response did not contain text output."
        if caughtBy catches e then .caught e else .uncaught e
      else
        match parse_llm_json jparse (.text raw_output) with
        | .ok parsed =>
            .ok (pyUpdate parsed
              [("evaluation_status", some "ok"),
               ("evaluation_error", some "")])
        | .error msg =>
            let e := PyErr.valueErr msg
            if caughtBy catches e then .caught e else .uncaught e

/-- The observable behaviour of one run of `evaluate_with_llm`: the
returned dict or propagated exception, the number of judge invocations,
and the list of back-off waits requested from `time.sleep`. -/
structure LlmRun where
  result : Except PyErr PyDict
  calls : Nat
  waits : List Nat

/-- The final `RuntimeError` of `evaluate_with_llm` (scoring.py line
142), wrapping the attempt count and the last underlying error
(`str(None)` is `"None"`). -/
def wrapFail (max_retries : Nat) (lastErr : Option PyErr) : PyErr :=
  .runtimeErr ("LLM evaluation failed after " ++ toString max_retries ++
    " attempts: " ++ (match lastErr with | none => "None" | some e => pyStrErr e))

/-- The retry loop `for attempt in range(1, max_retries + 1)` of
`evaluate_with_llm` (scoring.py lines 115-142), running attempts
`attempt, attempt+1, ...` with `remaining` iterations left
(`remaining = max_retries + 1 - attempt`, so `remaining = 0` is loop
exhaustion and `remaining = 1` means `attempt == max_retries`).  On a
caught exception with attempts remaining it sleeps `2 ^ (attempt - 1)`
and continues; on the final attempt it breaks and raises the wrapped
`RuntimeError`. -/
def retryGo (att : Nat → AttemptResult) (max_retries : Nat) :
    Nat → Nat → Option PyErr → LlmRun
  | 0, _, lastErr => ⟨.error (wrapFail max_retries lastErr), 0, []⟩
  | remaining + 1, attempt, _ =>
      match att attempt with
      | .ok fields => ⟨.ok fields, 1, []⟩
      | .uncaught e => ⟨.error e, 1, []⟩
      | .caught e =>
          if remaining = 0 then ⟨.error (wrapFail max_retries (some e)), 1, []⟩
          else
            let rest := retryGo att max_retries remaining (attempt + 1) (some e)
            ⟨rest.result, 1 + rest.calls, 2 ^ (attempt - 1) :: rest.waits⟩

/-- `scoring.evaluate_with_llm` (scoring.py lines 96-142), with the
judge call, prompt plumbing and text extraction abstracted into the
per-attempt stub (see the module docstring). -/
def evaluate_with_llm (catches : PyErr → Bool)
    (jparse : String → Option Json) (stub : Nat → Except PyErr String)
    (max_retries : Nat) : LlmRun :=
  retryGo (classifyAttempt catches jparse stub) max_retries max_retries 1 none

/-- Any result dict produced by the retry loop was produced by some
attempt. -/
theorem retryGo_ok_inv {att : Nat → AttemptResult} {max_retries : Nat}
    {fields : PyDict} :
    ∀ {remaining attempt : Nat} {lastErr : Option PyErr},
      (retryGo att max_retries remaining attempt lastErr).result = .ok fields →
      ∃ i, att i = .ok fields := by
  intro remaining
  induction remaining with
  | zero => intro attempt lastErr h; exact absurd h (by simp [retryGo])
  | succ rem ih =>
      intro attempt lastErr h
      unfold retryGo at h
      split at h
      · rename_i f heq
        have hf : f = fields := by simpa using h
        subst hf
        exact ⟨attempt, heq⟩
      · exact absurd h (by simp)
      · rename_i e heq
        split at h
        · exact absurd h (by simp)
        · exact ih h

theorem retryGo_step_ok {att : Nat → AttemptResult}
    {max_retries rem attempt : Nat} {lastErr : Option PyErr} {fields : PyDict}
    (h : att attempt = .ok fields) :
    retryGo att max_retries (rem + 1) attempt lastErr = ⟨.ok fields, 1, []⟩ := by
  unfold retryGo; rw [h]

theorem retryGo_step_uncaught {att : Nat → AttemptResult}
    {max_retries rem attempt : Nat} {lastErr : Option PyErr} {e : PyErr}
    (h : att attempt = .uncaught e) :
    retryGo att max_retries (rem + 1) attempt lastErr = ⟨.error e, 1, []⟩ := by
  unfold retryGo; rw [h]

theorem retryGo_step_caught_last {att : Nat → AttemptResult}
    {max_retries attempt : Nat} {lastErr : Option PyErr} {e : PyErr}
    (h : att attempt = .caught e) :
    retryGo att max_retries 1 attempt lastErr =
      ⟨.error (wrapFail max_retries (some e)), 1, []⟩ := by
  unfold retryGo; rw [h]; simp

theorem retryGo_step_caught {att : Nat → AttemptResult}
    {max_retries rem attempt : Nat} {lastErr : Option PyErr} {e : PyErr}
    (h : att attempt = .caught e) (hrem : rem ≠ 0) :
    retryGo att max_retries (rem + 1) attempt lastErr =
      ⟨(retryGo att max_retries rem (attempt + 1) (some e)).result,
       1 + (retryGo att max_retries rem (attempt + 1) (some e)).calls,
       2 ^ (attempt - 1) ::
         (retryGo att max_retries rem (attempt + 1) (some e)).waits⟩ := by
  conv_lhs => unfold retryGo
  rw [h]; simp [hrem]

/-- If every attempt before `s` fails with a caught exception and
attempt `s` (within the retry budget) succeeds, the loop returns the
successful result after `s + 1 - attempt` invocations, having slept
`2 ^ (i - 1)` after every failed attempt `i`. -/
theorem retryGo_ok_of_caught_until {att : Nat → AttemptResult}
    {max_retries s : Nat} {fields : PyDict}
    (hok : att s = .ok fields) (hsm : s ≤ max_retries) :
    ∀ (remaining attempt : Nat) (lastErr : Option PyErr),
      attempt + remaining = max_retries + 1 → 1 ≤ attempt → attempt ≤ s →
      (∀ i, attempt ≤ i → i < s → ∃ e, att i = .caught e) →
      retryGo att max_retries remaining attempt lastErr =
        ⟨.ok fields, s + 1 - attempt,
         (List.range' attempt (s - attempt)).map (fun i => 2 ^ (i - 1))⟩ := by
  intro remaining
  induction remaining with
  | zero => intro attempt lastErr hinv h1 hs _; omega
  | succ rem ih =>
      intro attempt lastErr hinv h1 hs hfail
      rcases Nat.lt_or_ge attempt s with hlt | hge
      · obtain ⟨e, he⟩ := hfail attempt le_rfl hlt
        have hrem : rem ≠ 0 := by omega
        have hrec := ih (attempt + 1) (some e) (by omega) (by omega) (by omega)
          (fun i hi hi2 => hfail i (by omega) hi2)
        rw [retryGo_step_caught he hrem, hrec]
        have h3 : s - attempt = (s - (attempt + 1)) + 1 := by omega
        rw [h3, List.range'_succ]
        simp only [LlmRun.mk.injEq, List.map_cons]
        refine ⟨?_, ?_, ?_⟩ <;> first | trivial | omega
      · have heq : attempt = s := by omega
        subst heq
        have h2 : attempt + 1 - attempt = 1 := by omega
        have h3 : attempt - attempt = 0 := by omega
        rw [retryGo_step_ok hok, h2, h3]
        simp

/-- If every attempt within the retry budget fails with a caught
exception, the loop raises the wrapped error of the final attempt after
exactly `max_retries + 1 - attempt` invocations, having slept
`2 ^ (i - 1)` after every non-final failed attempt `i`. -/
theorem retryGo_fail_of_all_caught {att : Nat → AttemptResult}
    {max_retries : Nat} (errAt : Nat → PyErr)
    (hfail : ∀ i, 1 ≤ i → i ≤ max_retries → att i = .caught (errAt i)) :
    ∀ (remaining attempt : Nat) (lastErr : Option PyErr),
      attempt + remaining = max_retries + 1 → 1 ≤ attempt →
      attempt ≤ max_retries →
      retryGo att max_retries remaining attempt lastErr =
        ⟨.error (wrapFail max_retries (some (errAt max_retries))),
         max_retries + 1 - attempt,
         (List.range' attempt (max_retries - attempt)).map
           (fun i => 2 ^ (i - 1))⟩ := by
  intro remaining
  induction remaining with
  | zero => intro attempt lastErr hinv h1 hm; omega
  | succ rem ih =>
      intro attempt lastErr hinv h1 hm
      rcases Nat.lt_or_ge attempt max_retries with hlt | hge
      · have he := hfail attempt h1 (by omega)
        have hrem : rem ≠ 0 := by omega
        rw [retryGo_step_caught he hrem,
          ih (attempt + 1) (some (errAt attempt)) (by omega) (by omega)
            (by omega)]
        have h3 : max_retries - attempt = (max_retries - (attempt + 1)) + 1 :=
          by omega
        rw [h3, List.range'_succ]
        simp only [LlmRun.mk.injEq, List.map_cons]
        refine ⟨?_, ?_, ?_⟩ <;> first | trivial | omega
      · have heq : attempt = max_retries := by omega
        have hrem : rem = 0 := by omega
        subst heq hrem
        have h2 : attempt + 1 - attempt = 1 := by omega
        have h3 : attempt - attempt = 0 := by omega
        rw [retryGo_step_caught_last (hfail attempt h1 le_rfl), h2, h3]
        simp

/-- Any successful attempt returns the normalized evaluation merged with
the `ok` status fields (scoring.py lines 130-134). -/
theorem classifyAttempt_ok_inv {catches : PyErr → Bool}
    {jparse : String → Option Json} {stub : Nat → Except PyErr String}
    {i : Nat} {fields : PyDict}
    (h : classifyAttempt catches jparse stub i = .ok fields) :
    ∃ te : TicketEvaluation,
      fields = pyUpdate
        [("content_score", some (toString te.content_score)),
         ("content_explanation", some (pyTake te.content_explanation 1000)),
         ("format_score", some (toString te.format_score)),
         ("format_explanation", some (pyTake te.format_explanation 1000))]
        [("evaluation_status", some "ok"), ("evaluation_error", some "")] := by
  unfold classifyAttempt at h
  split at h
  · split at h <;> exact absurd h (by simp)
  · split at h
    · dsimp only [] at h
      split at h <;> exact absurd h (by simp)
    · split at h
      · rename_i parsed hp
        obtain ⟨te, rfl, -⟩ := parse_llm_json_ok_inv hp
        cases h
        exact ⟨te, rfl⟩
      · dsimp only [] at h
        split at h <;> exact absurd h (by simp)

/-- The status lookup on the merged success fields. -/
theorem lookup_status_normFields (te : TicketEvaluation) :
    dictLookup "evaluation_status"
      (pyUpdate
        [("content_score", some (toString te.content_score)),
         ("content_explanation", some (pyTake te.content_explanation 1000)),
         ("format_score", some (toString te.format_score)),
         ("format_explanation", some (pyTake te.format_explanation 1000))]
        [("evaluation_status", some "ok"), ("evaluation_error", some "")])
      = some (some "ok") := rfl

/-- C2: given a judge stub that fails transiently `k < max_retries`
times and then succeeds, `evaluate_with_llm` returns status `ok` after
exactly `k + 1` invocations (waiting `2 ^ (i - 1)` after each failed
attempt `i`); given a stub that always fails transiently,
`evaluate_with_llm` raises after exactly `max_retries` invocations,
wrapping the last underlying error and the attempt count, having waited
`2 ^ (i - 1)` time units after each non-final failed attempt `i`. -/
theorem evaluate_with_llm_retry_spec (catches : PyErr → Bool)
    (jparse : String → Option Json) (stub : Nat → Except PyErr String)
    (max_retries k : Nat) (fields : PyDict) (errAt : Nat → PyErr) :
    ((∀ i, 1 ≤ i → i ≤ k →
        ∃ e, classifyAttempt catches jparse stub i = .caught e) →
      classifyAttempt catches jparse stub (k + 1) = .ok fields →
      k + 1 ≤ max_retries →
      evaluate_with_llm catches jparse stub max_retries =
          ⟨.ok fields, k + 1,
           (List.range' 1 k).map (fun i => 2 ^ (i - 1))⟩ ∧
        dictLookup "evaluation_status" fields = some (some "ok")) ∧
    ((∀ i, 1 ≤ i → i ≤ max_retries →
        classifyAttempt catches jparse stub i = .caught (errAt i)) →
      1 ≤ max_retries →
      evaluate_with_llm catches jparse stub max_retries =
        ⟨.error (.runtimeErr ("LLM evaluation failed after " ++
            toString max_retries ++ " attempts: " ++
            pyStrErr (errAt max_retries))),
         max_retries,
         (List.range' 1 (max_retries - 1)).map (fun i => 2 ^ (i - 1))⟩) := by
  constructor
  · intro hfail hok hle
    have hrun := retryGo_ok_of_caught_until hok hle max_retries 1 none
      (by omega) (by omega) (by omega)
      (fun i hi hi2 => hfail i hi (by omega))
    have hk1 : k + 1 + 1 - 1 = k + 1 := by omega
    have hk2 : k + 1 - 1 = k := by omega
    rw [hk1, hk2] at hrun
    refine ⟨hrun, ?_⟩
    obtain ⟨te, rfl⟩ := classifyAttempt_ok_inv hok
    exact lookup_status_normFields te
  · intro hfail hmr
    have hrun := retryGo_fail_of_all_caught errAt hfail max_retries 1 none
      (by omega) (by omega) (by omega)
    have hk1 : max_retries + 1 - 1 = max_retries := by omega
    rw [hk1] at hrun
    exact hrun

/-- The concrete retrying stub for the C2 witness: attempt 1 raises an
OpenAI error, later attempts return the text payload GOOD. -/
def stubW : Nat → Except PyErr String :=
  fun i => if i = 1 then .error (.openaiErr "boom") else .ok "GOOD"

/-- The concrete JSON parser for the C2 witness. -/
def jparseW : String → Option Json :=
  fun s =>
    if s = "GOOD" then
      some (.obj [("content_score", .num ((4 : Int) : Rat)),
                  ("content_explanation", .str "ok"),
                  ("format_score", .num ((5 : Int) : Rat)),
                  ("format_explanation", .str "fine")])
    else none

/-- Witness for C2 at a concrete input: one transient failure, then
success on attempt 2 of 3, with one backoff wait of 1 time unit. -/
theorem evaluate_with_llm_retry_spec_witness :
    evaluate_with_llm openaiErrorOnly jparseW stubW 3 =
      ⟨.ok [("content_score", some "4"), ("content_explanation", some "ok"),
            ("format_score", some "5"), ("format_explanation", some "fine"),
            ("evaluation_status", some "ok"), ("evaluation_error", some "")],
       2, [1]⟩ := by
  have h := (evaluate_with_llm_retry_spec openaiErrorOnly jparseW stubW 3 1
      [("content_score", some "4"), ("content_explanation", some "ok"),
       ("format_score", some "5"), ("format_explanation", some "fine"),
       ("evaluation_status", some "ok"), ("evaluation_error", some "")]
      (fun _ => .openaiErr "boom")).1
    (fun i h1 h2 => by
      have hi : i = 1 := by omega
      subst hi
      exact ⟨.openaiErr "boom", rfl⟩)
    rfl (by omega)
  exact h.1.trans (by rfl)

/-- Counterexample for C6: with the production `OpenAIError` error type,
a first attempt whose extracted text is empty does NOT trigger a retry:
with 3 attempts allowed, `evaluate_with_llm` stops after exactly 1
invocation with no backoff wait, propagating the empty-output
`RuntimeError` (it is not caught by the
`except (openai_error_type, ValueError, json.JSONDecodeError)` clause). -/
theorem evaluate_with_llm_empty_output_counterexample :
    (evaluate_with_llm openaiErrorOnly (fun _ => none)
        (fun _ => Except.ok "") 3).calls = 1 ∧
    (evaluate_with_llm openaiErrorOnly (fun _ => none)
        (fun _ => Except.ok "") 3).waits = [] ∧
    (evaluate_with_llm openaiErrorOnly (fun _ => none)
        (fun _ => Except.ok "") 3).result =
      .error (.runtimeErr "LLM response did not contain text output.") :=
  ⟨rfl, rfl, rfl⟩

/-- C6 (amended): a judge response whose text extraction yields the
empty string raises `RuntimeError` inside the attempt; whenever the
caller-supplied `openai_error_type` does not cover `RuntimeError` (as
with the production `OpenAIError`), the exception escapes the retry
clause and `evaluate_with_llm` fails immediately after that single
invocation, with no retry and no backoff wait, regardless of how many
attempts remain. -/
theorem evaluate_with_llm_empty_output_no_retry (catches : PyErr → Bool)
    (jparse : String → Option Json) (stub : Nat → Except PyErr String)
    (max_retries : Nat) (hmr : 1 ≤ max_retries)
    (hempty : stub 1 = .ok "")
    (hnc : catches (.runtimeErr "LLM response did not contain text output.")
        = false) :
    evaluate_with_llm catches jparse stub max_retries =
      ⟨.error (.runtimeErr "LLM response did not contain text output."),
       1, []⟩ := by
  have hcls : classifyAttempt catches jparse stub 1 =
      .uncaught (.runtimeErr "LLM response did not contain text output.") := by
    unfold classifyAttempt
    rw [hempty]
    simp [caughtBy, hnc]
  obtain ⟨m, rfl⟩ : ∃ m, max_retries = m + 1 :=
    ⟨max_retries - 1, by omega⟩
  unfold evaluate_with_llm
  rw [retryGo_step_uncaught hcls]

/-- Witness for the amended C6 at a concrete input. -/
theorem evaluate_with_llm_empty_output_no_retry_witness :
    evaluate_with_llm openaiErrorOnly (fun _ => some Json.null)
        (fun _ => Except.ok "") 2 =
      ⟨.error (.runtimeErr "LLM response did not contain text output."),
       1, []⟩ :=
  evaluate_with_llm_empty_output_no_retry openaiErrorOnly
    (fun _ => some Json.null) (fun _ => Except.ok "") 2 (by omega) rfl rfl

theorem lookup_eq_none_of_not_mem {α : Type} {k : String} :
    ∀ {d : List (String × α)}, k ∉ d.map Prod.fst → dictLookup k d = none := by
  intro d
  induction d with
  | nil => intro _; rfl
  | cons p rest ih =>
      intro h
      simp only [List.map_cons, List.mem_cons, not_or] at h
      have hne : ¬ p.1 = k := fun he => h.1 he.symm
      simp [dictLookup, hne, ih h.2]

theorem lookup_pyInsert_self {α : Type} (d : List (String × α)) (k : String)
    (v : α) : dictLookup k (pyInsert d k v) = some v := by
  induction d with
  | nil => simp [pyInsert, dictLookup]
  | cons p rest ih =>
      by_cases h : p.1 = k
      · simp [pyInsert, h, dictLookup]
      · simp [pyInsert, h, dictLookup, ih]

theorem lookup_pyInsert_ne {α : Type} (d : List (String × α)) {k q : String}
    (v : α) (h : ¬ q = k) :
    dictLookup q (pyInsert d k v) = dictLookup q d := by
  induction d with
  | nil =>
      have h2 : ¬ k = q := fun he => h he.symm
      simp [pyInsert, dictLookup, h2]
  | cons p rest ih =>
      by_cases hp : p.1 = k
      · subst hp
        have h2 : ¬ p.1 = q := fun he => h he.symm
        simp [pyInsert, dictLookup, h2, ih]
      · simp only [pyInsert, if_neg hp]
        by_cases hq : p.1 = q
        · simp [dictLookup, hq]
        · simp [dictLookup, hq, ih]

theorem lookup_pyUpdate_of_none {α : Type} {k : String} :
    ∀ (b a : List (String × α)), dictLookup k b = none →
      dictLookup k (pyUpdate a b) = dictLookup k a := by
  intro b
  induction b with
  | nil => intro a _; rfl
  | cons p bt ih =>
      intro a h
      have hne : ¬ p.1 = k := by
        intro he
        simp [dictLookup, he] at h
      have hbt : dictLookup k bt = none := by
        simpa [dictLookup, hne] using h
      show dictLookup k (pyUpdate (pyInsert a p.1 p.2) bt) = dictLookup k a
      rw [ih _ hbt, lookup_pyInsert_ne _ _ (fun he => hne he.symm)]

/-- Merged-dict override: a binding of the second dict (with duplicate-free
keys, as Python dicts have) survives the double-star merge. -/
theorem lookup_pyUpdate_of_some {α : Type} {k : String} {v : α} :
    ∀ (b a : List (String × α)), (b.map Prod.fst).Nodup →
      dictLookup k b = some v → dictLookup k (pyUpdate a b) = some v := by
  intro b
  induction b with
  | nil => intro a _ h; simp [dictLookup] at h
  | cons p bt ih =>
      intro a hnd h
      simp only [List.map_cons] at hnd
      rcases List.nodup_cons.mp hnd with ⟨hnm, hnd2⟩
      by_cases hp : p.1 = k
      · have hv : p.2 = v := by
          have := h
          simp [dictLookup, hp] at this
          exact this
        have hbtnone : dictLookup k bt = none := by
          subst hp
          exact lookup_eq_none_of_not_mem hnm
        show dictLookup k (pyUpdate (pyInsert a p.1 p.2) bt) = some v
        rw [lookup_pyUpdate_of_none bt _ hbtnone]
        subst hp
        rw [lookup_pyInsert_self, hv]
      · have hbt : dictLookup k bt = some v := by
          simpa [dictLookup, hp] using h
        show dictLookup k (pyUpdate (pyInsert a p.1 p.2) bt) = some v
        exact ih _ hnd2 hbt

/-- Python `(row.get(k) or "")`: an absent key, a `None` value and the
empty string all yield the empty string (a non-empty string is its own
truthy value). -/
def pyGetOr (row : PyDict) (k : String) : String :=
  match dictLookup k row with
  | some (some s) => s
  | _ => ""

/-- `scoring.evaluate_row` (scoring.py lines 145-190), instrumented with
the number of judge invocations performed (second component).  The
`model`, `timeout`, `max_output_tokens` and `store` parameters are
opaque plumbing forwarded to the judge call and are absorbed into the
per-attempt stub. -/
def evaluate_row (catches : PyErr → Bool) (jparse : String → Option Json)
    (row : PyDict) (client : Option (Nat → Except PyErr String))
    (max_retries : Nat) (error_score : Int) : PyDict × Nat :=
  if pyStrip (pyGetOr row "ticket") = "" ∨ pyStrip (pyGetOr row "reply") = "" then
    (error_result "Missing ticket or reply text; unable to evaluate."
      error_score "input_error", 0)
  else
    match client with
    | none =>
        (error_result
          "OpenAI client not configured (set OPENAI_API_KEY or remove skip_api)."
          error_score "infra_error", 0)
    | some stub =>
        match (evaluate_with_llm catches jparse stub max_retries).result with
        | .ok fields =>
            (fields, (evaluate_with_llm catches jparse stub max_retries).calls)
        | .error exc =>
            (error_result ("LLM evaluation failed: " ++ pyStrErr exc)
              error_score "infra_error",
             (evaluate_with_llm catches jparse stub max_retries).calls)

/-- `status_counts[status] = status_counts.get(status, 0) + 1`
(scoring.py line 219). -/
def countIncr (counts : List (String × Nat)) (status : String) :
    List (String × Nat) :=
  pyInsert counts status
    ((match dictLookup status counts with | some n => n | none => 0) + 1)

/-- The loop body of `scoring.evaluate_rows` (scoring.py lines 206-220):
evaluate the row, tally `str(scores.get("evaluation_status", "unknown"))`,
and append the input row merged with the evaluation fields. -/
def evaluate_rows_step (catches : PyErr → Bool)
    (jparse : String → Option Json)
    (client : Option (Nat → Except PyErr String)) (max_retries : Nat)
    (error_score : Int) (acc : List PyDict × List (String × Nat))
    (row : PyDict) : List PyDict × List (String × Nat) :=
  let scores := (evaluate_row catches jparse row client max_retries
    error_score).1
  let status : String :=
    match dictLookup "evaluation_status" scores with
    | some (some s) => s
    | some none => "None"
    | none => "unknown"
  (acc.1 ++ [pyUpdate row scores], countIncr acc.2 status)

/-- `scoring.evaluate_rows` (scoring.py lines 193-221): fold the loop
body over the rows, starting from an empty output list and tally. -/
def evaluate_rows (catches : PyErr → Bool) (jparse : String → Option Json)
    (rows : List PyDict) (client : Option (Nat → Except PyErr String))
    (max_retries : Nat) (error_score : Int) :
    List PyDict × List (String × Nat) :=
  rows.foldl (evaluate_rows_step catches jparse client max_retries error_score)
    ([], [])

theorem keys_error_result (reason : String) (error_score : Int)
    (status : String) :
    (error_result reason error_score status).map Prod.fst =
      ["content_score", "content_explanation", "format_score",
       "format_explanation", "evaluation_status", "evaluation_error"] := rfl

theorem keys_normFields (te : TicketEvaluation) :
    (pyUpdate
        [("content_score", some (toString te.content_score)),
         ("content_explanation", some (pyTake te.content_explanation 1000)),
         ("format_score", some (toString te.format_score)),
         ("format_explanation", some (pyTake te.format_explanation 1000))]
        [("evaluation_status", some "ok"),
         ("evaluation_error", some "")]).map Prod.fst =
      ["content_score", "content_explanation", "format_score",
       "format_explanation", "evaluation_status", "evaluation_error"] := rfl

/-- Every result dict of `evaluate_row` carries exactly the four score
and explanation fields plus the two metadata fields, in order. -/
theorem evaluate_row_keys (catches : PyErr → Bool)
    (jparse : String → Option Json) (row : PyDict)
    (client : Option (Nat → Except PyErr String)) (max_retries : Nat)
    (error_score : Int) :
    ((evaluate_row catches jparse row client max_retries error_score).1).map
        Prod.fst =
      ["content_score", "content_explanation", "format_score",
       "format_explanation", "evaluation_status", "evaluation_error"] := by
  unfold evaluate_row
  split
  · exact keys_error_result _ _ _
  · split
    · exact keys_error_result _ _ _
    · rename_i stub
      split
      · rename_i fields hres
        have hres2 : (retryGo (classifyAttempt catches jparse stub)
            max_retries max_retries 1 none).result = .ok fields := hres
        obtain ⟨i, hi⟩ := retryGo_ok_inv hres2
        obtain ⟨te, rfl⟩ := classifyAttempt_ok_inv hi
        exact keys_normFields te
      · exact keys_error_result _ _ _

theorem evaluate_row_blank_core (catches : PyErr → Bool)
    (jparse : String → Option Json) (row : PyDict)
    (client : Option (Nat → Except PyErr String)) (max_retries : Nat)
    (error_score : Int)
    (h : pyStrip (pyGetOr row "ticket") = "" ∨ pyStrip (pyGetOr row "reply") = "") :
    evaluate_row catches jparse row client max_retries error_score =
      (error_result "Missing ticket or reply text; unable to evaluate."
        error_score "input_error", 0) := by
  unfold evaluate_row
  rw [if_pos h]

/-- Every result dict of `evaluate_row` carries a status among `ok`,
`input_error` and `infra_error` (the function is total: it never
raises). -/
theorem evaluate_row_has_status (catches : PyErr → Bool)
    (jparse : String → Option Json) (max_retries : Nat) (error_score : Int)
    (row : PyDict) (client : Option (Nat → Except PyErr String)) :
    ∃ s, dictLookup "evaluation_status"
        ((evaluate_row catches jparse row client max_retries error_score).1)
        = some (some s) ∧
      (s = "ok" ∨ s = "input_error" ∨ s = "infra_error") := by
  unfold evaluate_row
  split
  · exact ⟨"input_error", rfl, Or.inr (Or.inl rfl)⟩
  · split
    · exact ⟨"infra_error", rfl, Or.inr (Or.inr rfl)⟩
    · rename_i stub
      split
      · rename_i fields hres
        have hres2 : (retryGo (classifyAttempt catches jparse stub)
            max_retries max_retries 1 none).result = .ok fields := hres
        obtain ⟨i, hi⟩ := retryGo_ok_inv hres2
        obtain ⟨te, rfl⟩ := classifyAttempt_ok_inv hi
        exact ⟨"ok", lookup_status_normFields te, Or.inl rfl⟩
      · exact ⟨"infra_error", rfl, Or.inr (Or.inr rfl)⟩

/-- C10: a row in which `ticket` or `reply` is entirely absent, or maps
to `None`, is treated as having an empty field: `evaluate_row` returns
status `input_error` (via `row.get(...) or ""`, which never raises a
lookup or type error); the judge is not invoked. -/
theorem evaluate_row_absent_field_input_error (catches : PyErr → Bool)
    (jparse : String → Option Json) (row : PyDict)
    (client : Option (Nat → Except PyErr String)) (max_retries : Nat)
    (error_score : Int)
    (h : (dictLookup "ticket" row = none ∨ dictLookup "ticket" row = some none)
      ∨ (dictLookup "reply" row = none ∨ dictLookup "reply" row = some none)) :
    evaluate_row catches jparse row client max_retries error_score =
        (error_result "Missing ticket or reply text; unable to evaluate."
          error_score "input_error", 0) ∧
    dictLookup "evaluation_status"
        ((evaluate_row catches jparse row client max_retries error_score).1)
        = some (some "input_error") ∧
    (evaluate_row catches jparse row client max_retries error_score).2 = 0 := by
  have hblank : pyStrip (pyGetOr row "ticket") = ""
      ∨ pyStrip (pyGetOr row "reply") = "" := by
    rcases h with (h | h) | (h | h)
    · exact Or.inl (by simp [pyGetOr, h]; rfl)
    · exact Or.inl (by simp [pyGetOr, h]; rfl)
    · exact Or.inr (by simp [pyGetOr, h]; rfl)
    · exact Or.inr (by simp [pyGetOr, h]; rfl)
  have hc := evaluate_row_blank_core catches jparse row client max_retries
    error_score hblank
  refine ⟨hc, ?_, ?_⟩
  · rw [hc]; rfl
  · rw [hc]

/-- Witness for C10 at a concrete input: the `ticket` key is absent. -/
theorem evaluate_row_absent_field_input_error_witness :
    dictLookup "evaluation_status"
        ((evaluate_row openaiErrorOnly (fun _ => none)
            [("reply", some "have a look")] none 3 3).1)
      = some (some "input_error") :=
  (evaluate_row_absent_field_input_error openaiErrorOnly (fun _ => none)
      [("reply", some "have a look")] none 3 3 (Or.inl (Or.inl rfl))).2.1

/-- Counterexample for C7: for a usable row with no client configured,
the recorded reason is the literal
"OpenAI client not configured (set OPENAI_API_KEY or remove skip_api)."
of scoring.py line 168, not "judge client not configured". -/
theorem evaluate_row_no_client_reason_counterexample :
    dictLookup "evaluation_error"
        ((evaluate_row openaiErrorOnly (fun _ => none)
            [("ticket", some "Need invoice"),
             ("reply", some "Use billing section")] none 3 3).1)
      = some (some
          "OpenAI client not configured (set OPENAI_API_KEY or remove skip_api).")
    ∧ ¬ ("OpenAI client not configured (set OPENAI_API_KEY or remove skip_api)."
          = "judge client not configured") := by
  refine ⟨?_, by decide⟩
  rfl

/-- C7 (amended): for every row with non-empty ticket and reply after
trimming and no judge client configured, `evaluate_row` returns status
`infra_error` with reason "OpenAI client not configured (set
OPENAI_API_KEY or remove skip_api)." and invokes no judge; and for
every row and client, `evaluate_row` never raises — it always returns a
result carrying a status. -/
theorem evaluate_row_no_client_infra_error (catches : PyErr → Bool)
    (jparse : String → Option Json) (row : PyDict) (max_retries : Nat)
    (error_score : Int)
    (ht : ¬ pyStrip (pyGetOr row "ticket") = "")
    (hr : ¬ pyStrip (pyGetOr row "reply") = "") :
    evaluate_row catches jparse row none max_retries error_score =
        (error_result
          "OpenAI client not configured (set OPENAI_API_KEY or remove skip_api)."
          error_score "infra_error", 0) ∧
    dictLookup "evaluation_status"
        ((evaluate_row catches jparse row none max_retries error_score).1)
        = some (some "infra_error") ∧
    (evaluate_row catches jparse row none max_retries error_score).2 = 0 ∧
    (∀ (row2 : PyDict) (client : Option (Nat → Except PyErr String)),
      ∃ s, dictLookup "evaluation_status"
          ((evaluate_row catches jparse row2 client max_retries
            error_score).1) = some (some s) ∧
        (s = "ok" ∨ s = "input_error" ∨ s = "infra_error")) := by
  have hmain : evaluate_row catches jparse row none max_retries error_score =
      (error_result
        "OpenAI client not configured (set OPENAI_API_KEY or remove skip_api)."
        error_score "infra_error", 0) := by
    unfold evaluate_row
    rw [if_neg (not_or.mpr ⟨ht, hr⟩)]
  refine ⟨hmain, ?_, ?_, ?_⟩
  · rw [hmain]; rfl
  · rw [hmain]
  · exact fun row2 client =>
      evaluate_row_has_status catches jparse max_retries error_score row2 client

/-- Witness for the amended C7 at a concrete input. -/
theorem evaluate_row_no_client_infra_error_witness :
    evaluate_row openaiErrorOnly (fun _ => none)
        [("ticket", some "t"), ("reply", some "r")] none 3 3 =
      (error_result
        "OpenAI client not configured (set OPENAI_API_KEY or remove skip_api)."
        3 "infra_error", 0) :=
  (evaluate_row_no_client_infra_error openaiErrorOnly (fun _ => none)
      [("ticket", some "t"), ("reply", some "r")] 3 3
      (by decide) (by decide)).1

/-- The fold of the batch loop, generalized over the accumulator: the
output list is the accumulator followed by one merged row per input
row, in input order. -/
theorem evaluate_rows_go (catches : PyErr → Bool)
    (jparse : String → Option Json)
    (client : Option (Nat → Except PyErr String)) (max_retries : Nat)
    (error_score : Int) :
    ∀ (rows : List PyDict) (acc : List PyDict × List (String × Nat)),
      (rows.foldl
          (evaluate_rows_step catches jparse client max_retries error_score)
          acc).1
        = acc.1 ++ rows.map (fun r =>
            pyUpdate r ((evaluate_row catches jparse r client max_retries
              error_score).1)) := by
  intro rows
  induction rows with
  | nil => intro acc; simp
  | cons r rs ih =>
      intro acc
      rw [List.foldl_cons, ih]
      simp [evaluate_rows_step]

/-- C1: for every list of input rows and every row-evaluation outcome,
`evaluate_rows` returns exactly one output row per input row, in input
order, each output row being the input row merged with the evaluation
fields via the double-star dict merge; evaluation fields override any
same-named input fields; no row is dropped or reordered. -/
theorem evaluate_rows_one_row_per_input (catches : PyErr → Bool)
    (jparse : String → Option Json)
    (client : Option (Nat → Except PyErr String)) (max_retries : Nat)
    (error_score : Int) (rows : List PyDict) :
    (evaluate_rows catches jparse rows client max_retries error_score).1
        = rows.map (fun r =>
            pyUpdate r ((evaluate_row catches jparse r client max_retries
              error_score).1)) ∧
    (evaluate_rows catches jparse rows client max_retries
        error_score).1.length = rows.length ∧
    (∀ (r : PyDict) (k : String) (v : PyVal),
        dictLookup k ((evaluate_row catches jparse r client max_retries
          error_score).1) = some v →
        dictLookup k (pyUpdate r ((evaluate_row catches jparse r client
          max_retries error_score).1)) = some v) := by
  have hmain : (evaluate_rows catches jparse rows client max_retries
      error_score).1 = rows.map (fun r =>
        pyUpdate r ((evaluate_row catches jparse r client max_retries
          error_score).1)) := by
    unfold evaluate_rows
    rw [evaluate_rows_go]
    simp
  refine ⟨hmain, by rw [hmain]; simp, ?_⟩
  intro r k v hv
  have hnd : (((evaluate_row catches jparse r client max_retries
      error_score).1).map Prod.fst).Nodup := by
    rw [evaluate_row_keys]
    decide
  exact lookup_pyUpdate_of_some _ r hnd hv

/-- Witness for C1 at a concrete input: one row, no client; the merged
row carries the overriding status field of the evaluation. -/
theorem evaluate_rows_one_row_per_input_witness :
    dictLookup "evaluation_status"
        (pyUpdate [("ticket", some "hi"), ("reply", some "yo")]
          ((evaluate_row openaiErrorOnly (fun _ => none)
              [("ticket", some "hi"), ("reply", some "yo")] none 3 3).1))
      = some (some "infra_error") :=
  (evaluate_rows_one_row_per_input openaiErrorOnly (fun _ => none) none 3 3
      [[("ticket", some "hi"), ("reply", some "yo")]]).2.2
    [("ticket", some "hi"), ("reply", some "yo")] "evaluation_status"
    (some "infra_error") rfl

/-- `csv_io.BASE_OUTPUT_FIELDS` (csv_io.py lines 7-14). -/
def BASE_OUTPUT_FIELDS : List String :=
  ["ticket", "reply", "content_score", "content_explanation",
   "format_score", "format_explanation"]

/-- `csv_io.METADATA_OUTPUT_FIELDS` (csv_io.py lines 15-18). -/
def METADATA_OUTPUT_FIELDS : List String :=
  ["evaluation_status", "evaluation_error"]

/-- The cell `csv.DictWriter` writes for one field of one row: the
string value, or the empty string for a missing field (`restval` is
`None`) or a `None` value. -/
def csvCell (v : Option PyVal) : String :=
  match v with
  | some (some s) => s
  | _ => ""

/-- `csv_io.write_rows` (csv_io.py lines 42-51) as the produced table:
the header row (base fields, extended with the metadata fields exactly
when requested) and one projected row per input row, with
`extrasaction="ignore"` dropping any field not in the header. -/
def write_rows (rows : List PyDict) (include_metadata : Bool) :
    List String × List (List String) :=
  let fieldnames := BASE_OUTPUT_FIELDS ++
    (if include_metadata then METADATA_OUTPUT_FIELDS else [])
  (fieldnames,
   rows.map (fun r => fieldnames.map (fun k => csvCell (dictLookup k r))))

/-- C9: the output column list contains `evaluation_status` and
`evaluation_error` exactly when metadata is requested, always starts
with the six base columns in their fixed order, and any field present
on a row but absent from the column list is dropped silently (adding
such a field to a row never changes the written table and never
errors). -/
theorem write_rows_columns_spec (rows : List PyDict)
    (include_metadata : Bool) :
    ("evaluation_status" ∈ (write_rows rows include_metadata).1
        ↔ include_metadata = true) ∧
    ("evaluation_error" ∈ (write_rows rows include_metadata).1
        ↔ include_metadata = true) ∧
    (write_rows rows include_metadata).1.take 6 = BASE_OUTPUT_FIELDS ∧
    (∀ (r : PyDict) (k : String) (v : PyVal),
        k ∉ (write_rows rows include_metadata).1 →
        write_rows [pyInsert r k v] include_metadata
          = write_rows [r] include_metadata) := by
  have hdrop : ∀ (r : PyDict) (k : String) (v : PyVal),
      k ∉ (write_rows rows include_metadata).1 →
      write_rows [pyInsert r k v] include_metadata
        = write_rows [r] include_metadata := by
    intro r k v hk
    have hmap : ∀ q ∈ (write_rows rows include_metadata).1,
        csvCell (dictLookup q (pyInsert r k v)) = csvCell (dictLookup q r) := by
      intro q hq
      have hne : ¬ q = k := by
        intro he
        subst he
        exact hk hq
      rw [lookup_pyInsert_ne _ _ hne]
    unfold write_rows at hmap ⊢
    simp only [List.map_cons, List.map_nil]
    exact congrArg _ (congrArg (· :: []) (List.map_congr_left hmap))
  cases include_metadata
  · have h1 : (write_rows rows false).1 = BASE_OUTPUT_FIELDS := rfl
    refine ⟨?_, ?_, ?_, hdrop⟩ <;> rw [h1] <;> decide
  · have h1 : (write_rows rows true).1
        = BASE_OUTPUT_FIELDS ++ METADATA_OUTPUT_FIELDS := rfl
    refine ⟨?_, ?_, ?_, hdrop⟩ <;> rw [h1] <;> decide

/-- Witness for C9 at a concrete input: an extra field is dropped. -/
theorem write_rows_columns_spec_witness :
    write_rows [pyInsert [("ticket", some "a")] "extra" (some "x")] false
      = write_rows [[("ticket", some "a")]] false :=
  (write_rows_columns_spec [] false).2.2.2 [("ticket", some "a")] "extra"
    (some "x") (by decide)
